import Mathlib

/-!
Shallow embedding of `src/haproxy.js`, a generator of HAProxy configuration
text, together with proofs about the generated text.

The JavaScript source synthesizes configuration strings by repeated string
concatenation (`util.format` applied to fixed patterns, accumulated with
`+=` inside loops).  The embedding below mirrors that structure: each
`util.format(pattern, ...)` call site becomes a `format*` function whose body
is the literal pattern with the format specifiers replaced by the arguments,
and each accumulation loop becomes a `List.foldl` with an explicit step
function.  Machine-level concerns do not arise: the code manipulates only
strings, lists and small natural numbers.

The orchestration parts of the source (`createHapService`, container and
network wiring) are out of the modelled scope; the entry points here return
the file map that the source would hand to that layer.
-/

set_option maxRecDepth 100000

namespace Haproxy

/-! ## Generic string utilities used by the development -/

/-- Boolean test that the first character list is an initial segment of the
second one. -/
def startsWithL : List Char → List Char → Bool
  | [], _ => true
  | _ :: _, [] => false
  | c :: p, d :: s => c == d && startsWithL p s

/-- Number of positions of `s` at which the pattern `pat` occurs (every
position is inspected, so overlapping occurrences are all counted). -/
def countOccurAux (pat : List Char) : List Char → Nat
  | [] => 0
  | c :: rest => (if startsWithL pat (c :: rest) then 1 else 0) + countOccurAux pat rest

/-- Number of occurrences of the pattern string `pat` inside `s`. -/
def countOccur (pat s : String) : Nat := countOccurAux pat.data s.data

/-- Concatenation of a list of strings, in order. -/
def concatAll : List String → String
  | [] => ""
  | s :: rest => s ++ concatAll rest

/-- Fuel-bounded worker for `replaceAll`; the fuel is the length of the
scanned list, which bounds the number of recursive steps. -/
def replaceAllAux (pat rep : List Char) : Nat → List Char → List Char
  | 0, s => s
  | _ + 1, [] => []
  | fuel + 1, c :: rest =>
    if startsWithL pat (c :: rest) && !pat.isEmpty then
      rep ++ replaceAllAux pat rep fuel (List.drop (pat.length - 1) rest)
    else
      c :: replaceAllAux pat rep fuel rest

/-- Replace every non-overlapping occurrence of `pat` by `rep`, scanning left
to right. -/
def replaceAll (pat rep s : List Char) : List Char := replaceAllAux pat rep s.length s

/-! ## Constants of `src/haproxy.js` -/

/-- Source: `const configPath = '/usr/local/etc/haproxy/haproxy.cfg';` -/
def configPath : String := "/usr/local/etc/haproxy/haproxy.cfg"

/-- Source: `const internalPort = 80;` (the port HAProxy uses to talk to the
services behind it). -/
def internalPort : Nat := 80

/-- Source: `const exposedPort = 80;` (the port HAProxy listens on). -/
def exposedPort : Nat := 80

/-- The default value of the `balance` parameter of both entry points,
`balance = 'roundrobin'` in the source. -/
def defaultBalance : String := "roundrobin"

/-! ## Data model -/

/-- A backend service as the generator sees it: `service.name` is its name and
`service.children()` returns the snapshot of its endpoint addresses, in
resolver order.  The embedding stores the snapshot as a field. -/
structure Service where
  name : String
  children : List String
deriving DecidableEq

/-- Default `Service` used with `List.getD`. -/
def defaultService : Service := ⟨"", []⟩

/-- Source: `function backendName(service) { return service.name; }` -/
def backendName (service : Service) : String := service.name

/-! ## Formatting helpers: one per `util.format` call site -/

/-- `util.format(backendPattern, name, balance)` where `backendPattern` is the
template literal starting with a newline, then `backend %s`, the balance line
and the cookie-affinity line. -/
def formatBackendPattern (name balance : String) : String :=
  "\nbackend " ++ name ++ "\n    balance " ++ balance
    ++ "\n    cookie SERVERID insert indirect nocache"

/-- `util.format('%s-%d', name, i)`: the per-endpoint server identifier. -/
def serverName (name : String) (i : Nat) : String := name ++ "-" ++ toString i

/-- `util.format(serverPattern, serverName, addr, internalPort, serverName)`
where `serverPattern` is the server-line template literal. -/
def formatServerPattern (sname addr : String) (port : Nat) (cookie : String) : String :=
  "\n    server " ++ sname ++ " " ++ addr ++ ":" ++ toString port
    ++ " check resolvers dns cookie " ++ cookie

/-- `util.format(aclPattern, match, domain)` in `urlRoutingConfig`. -/
def formatAclPattern (matchId domain : String) : String :=
  "\n    acl " ++ matchId ++ " hdr(host) -i " ++ domain

/-- `util.format(useBackendPattern, name, match)` in `urlRoutingConfig`. -/
def formatUseBackendPattern (name matchId : String) : String :=
  "\n    use_backend " ++ name ++ " if " ++ matchId

/-- `util.format(defaultBackendPattern, backendName(service))` in
`singleServiceLoadBalancer`. -/
def formatDefaultBackendPattern (name : String) : String :=
  "\n    default_backend " ++ name

/-! ## Backend rule generator (`createBackendConfigs`) -/

/-- One server line of the inner loop of `createBackendConfigs`, from the
index-endpoint pair `p`: the server id `serverName name p.1` is used both as
the server name and as the cookie value, and the port is `internalPort`. -/
def serverLineFn (name : String) (p : Nat × String) : String :=
  formatServerPattern (serverName name p.1) p.2 internalPort (serverName name p.1)

/-- Body of the `services.forEach` loop of `createBackendConfigs`: append the
backend block header for the service (`name` is `backendName service`), then
one server line per endpoint of the snapshot (the `for (let i = 0; ...)`
loop, an index-value iteration, here a fold over `service.children.enum`),
then a trailing newline. -/
def backendStep (balance : String) (config : String) (service : Service) : String :=
  (service.children.enum.foldl
    (fun c p => c ++ serverLineFn (backendName service) p)
    (config ++ formatBackendPattern (backendName service) balance)) ++ "\n"

/-- Source: `function createBackendConfigs(services, balance)`.  The source
accepts a single service or an array and wraps the former; the embedding
takes the list, and the single-service entry point passes `[service]`. -/
def createBackendConfigs (services : List Service) (balance : String) : String :=
  services.foldl (backendStep balance) ""

/-- The server lines of one backend block, as a list (structured view of the
inner loop of `createBackendConfigs`). -/
def serverLinesOf (name : String) (addrs : List String) : List String :=
  addrs.enum.map (serverLineFn name)

/-- The complete backend block emitted for one service (structured view of
one iteration of the outer loop of `createBackendConfigs`). -/
def backendBlock (balance : String) (service : Service) : String :=
  formatBackendPattern (backendName service) balance
    ++ concatAll (serverLinesOf (backendName service) service.children) ++ "\n"

/-- The list of backend blocks emitted for a service list, in input order. -/
def backendBlocksList (services : List Service) (balance : String) : List String :=
  services.map (backendBlock balance)

/-! ## Frontend rule generator (`urlRoutingConfig`) -/

/-- Body of the `for (let domain in domainToService)` loop of
`urlRoutingConfig`: derive the backend name and the match identifier
`name + '_req'`, extend the acl accumulator and the use-backend accumulator.
The `hasOwnProperty` guard always passes for the entries modelled here. -/
def routingStep (acc : String × String) (pair : String × Service) : String × String :=
  let name := backendName pair.2
  let matchId := name ++ "_req"
  (acc.1 ++ formatAclPattern matchId pair.1, acc.2 ++ formatUseBackendPattern name matchId)

/-- Source: `function urlRoutingConfig(domainToService)`.  The JavaScript
object is modelled as an association list in its iteration order; the
function returns the accumulated acl rules followed by the accumulated
use-backend rules. -/
def urlRoutingConfig (domainToService : List (String × Service)) : String :=
  let acc := domainToService.foldl routingStep ("", "")
  acc.1 ++ acc.2

/-- The acl rules of `urlRoutingConfig`, as a list in map iteration order. -/
def aclRulesList (m : List (String × Service)) : List String :=
  m.map (fun p => formatAclPattern (backendName p.2 ++ "_req") p.1)

/-- The use-backend rules of `urlRoutingConfig`, as a list in map iteration
order. -/
def useRulesList (m : List (String × Service)) : List String :=
  m.map (fun p => formatUseBackendPattern (backendName p.2) (backendName p.2 ++ "_req"))

/-! ## Document assembler (`createConfigFiles`) -/

/-- Modelled from the spec: the static preamble template `haproxy.cfg` read by
`createConfigFiles` is not part of the JavaScript source under `src/`; per the
spec the assembler renders it with the exposed listening port substituted into
its one recognized placeholder (`Mustache.render(configTempl, \x7bport:
exposedPort\x7d)`), which this model performs by replacing the Mustache
placeholder for `port` with the decimal rendering of the port. -/
def mustacheRender (templ : String) (port : Nat) : String :=
  String.mk (replaceAll ("\x7b\x7bport\x7d\x7d").data (toString port).data templ.data)

/-- Source: `function createConfigFiles(frontendConfig, backendConfig)`.  The
template text (read from disk in the source) is passed in as `configTempl`.
The body mirrors `config += frontendConfig + '\n' + backendConfig` and the
single-entry file map `files[configPath] = config`. -/
def createConfigFiles (configTempl frontendConfig backendConfig : String) :
    List (String × String) :=
  let config := mustacheRender configTempl exposedPort
  let config := config ++ (frontendConfig ++ "\n" ++ backendConfig)
  [(configPath, config)]

/-! ## Entry points -/

/-- Source: `function singleServiceLoadBalancer(n, service, balance)`, the
configuration-generation part: the frontend is a single default-backend
directive, the backend section covers the one service.  The replica count and
the container wiring (`createHapService`) are orchestration, outside the
modelled scope; the value returned is the file map the source builds. -/
def singleServiceLoadBalancerFiles (configTempl : String) (service : Service)
    (balance : String) : List (String × String) :=
  let frontendConfig := formatDefaultBackendPattern (backendName service)
  let backendConfig := createBackendConfigs [service] balance
  createConfigFiles configTempl frontendConfig backendConfig

/-- `singleServiceLoadBalancer` with the `balance` argument omitted, taking
the source's default value. -/
def singleServiceLoadBalancerFilesDefault (configTempl : String) (service : Service) :
    List (String × String) :=
  singleServiceLoadBalancerFiles configTempl service defaultBalance

/-- The service list built by the first loop of `withURLrouting`: one push of
`domainToService[domain]` per domain key, in map iteration order (no
deduplication). -/
def servicesOf (m : List (String × Service)) : List Service := m.map Prod.snd

/-- Source: `function withURLrouting(n, domainToService, balance)`, the
configuration-generation part, returning the file map the source builds. -/
def withURLroutingFiles (configTempl : String) (m : List (String × Service))
    (balance : String) : List (String × String) :=
  createConfigFiles configTempl (urlRoutingConfig m)
    (createBackendConfigs (servicesOf m) balance)

/-- `withURLrouting` with the `balance` argument omitted, taking the source's
default value. -/
def withURLroutingFilesDefault (configTempl : String) (m : List (String × Service)) :
    List (String × String) :=
  withURLroutingFiles configTempl m defaultBalance

/-- Number of backend block headers occurring in a piece of generated
configuration text. -/
def numBackendBlocks (cfg : String) : Nat := countOccur "\nbackend " cfg

/-- The distinct services referenced by a domain map. -/
def distinctServices (m : List (String × Service)) : List Service :=
  (servicesOf m).dedup


/-! ## Helper lemmas about the string utilities -/

theorem strAppend_empty (s : String) : s ++ "" = s := by
  apply String.ext; simp [String.data_append]

theorem strEmpty_append (s : String) : "" ++ s = s := by
  apply String.ext; simp [String.data_append]

theorem concatAll_nil : concatAll [] = "" := rfl

theorem concatAll_cons (s : String) (l : List String) :
    concatAll (s :: l) = s ++ concatAll l := rfl

theorem foldl_of_step_append {α : Type} (f : String → α → String) (g : α → String)
    (hf : ∀ acc x, f acc x = acc ++ g x) :
    ∀ (l : List α) (acc : String), l.foldl f acc = acc ++ concatAll (l.map g)
  | [], acc => by simp [concatAll_nil, strAppend_empty]
  | a :: t, acc => by
    rw [List.foldl_cons, hf, foldl_of_step_append f g hf t, List.map_cons, concatAll_cons,
      String.append_assoc]

theorem startsWithL_self_append (p t : List Char) : startsWithL p (p ++ t) = true := by
  induction p with
  | nil => rfl
  | cons c p ih => simp [startsWithL, ih]

theorem countOccurAux_not_head (c0 : Char) (pr : List Char) (l t : List Char)
    (h : c0 ∉ l) :
    countOccurAux (c0 :: pr) (l ++ t) = countOccurAux (c0 :: pr) t := by
  induction l with
  | nil => simp
  | cons c l ih =>
    have hc : (c0 == c) = false := by
      simp only [List.mem_cons] at h
      simp [beq_eq_false_iff_ne]
      exact fun hcc => h (Or.inl hcc)
    have hnot : c0 ∉ l := fun hm => h (List.mem_cons_of_mem _ hm)
    simp [countOccurAux, startsWithL, hc, ih hnot]

theorem countOccurAux_zero (c0 : Char) (pr l : List Char) (h : c0 ∉ l) :
    countOccurAux (c0 :: pr) l = 0 := by
  have := countOccurAux_not_head c0 pr l [] h
  simpa using this

theorem startsWithL_append_left (p a t : List Char) (h : p.length ≤ a.length) :
    startsWithL p (a ++ t) = startsWithL p a := by
  induction p generalizing a with
  | nil => rfl
  | cons c p ih =>
    cases a with
    | nil => simp at h
    | cons d a' =>
      simp only [List.cons_append, startsWithL, List.append_eq]
      rw [ih a' (by simpa using h)]

theorem countOccurAux_single_line (c0 : Char) (pr litTail nmd : List Char)
    (h1 : c0 ∉ litTail) (h2 : c0 ∉ nmd) (h3 : pr.length ≤ litTail.length) :
    countOccurAux (c0 :: pr) ((c0 :: litTail) ++ nmd)
      = if startsWithL (c0 :: pr) (c0 :: litTail) then 1 else 0 := by
  have hz : countOccurAux (c0 :: pr) (litTail ++ nmd) = 0 := by
    apply countOccurAux_zero
    intro hm
    rcases List.mem_append.1 hm with hm | hm
    · exact h1 hm
    · exact h2 hm
  have hs : startsWithL (c0 :: pr) ((c0 :: litTail) ++ nmd)
      = startsWithL (c0 :: pr) (c0 :: litTail) := by
    apply startsWithL_append_left
    simpa using Nat.succ_le_succ h3
  calc countOccurAux (c0 :: pr) ((c0 :: litTail) ++ nmd)
      = (if startsWithL (c0 :: pr) ((c0 :: litTail) ++ nmd) then 1 else 0)
          + countOccurAux (c0 :: pr) (litTail ++ nmd) := rfl
    _ = _ := by rw [hz, hs, Nat.add_zero]

theorem countOccurAux_self_once (c0 : Char) (pr t : List Char)
    (h1 : c0 ∉ pr) (h2 : c0 ∉ t) :
    countOccurAux (c0 :: pr) ((c0 :: pr) ++ t) = 1 := by
  have hz : countOccurAux (c0 :: pr) (pr ++ t) = 0 := by
    apply countOccurAux_zero
    intro hm
    rcases List.mem_append.1 hm with hm | hm
    · exact h1 hm
    · exact h2 hm
  calc countOccurAux (c0 :: pr) ((c0 :: pr) ++ t)
      = (if startsWithL (c0 :: pr) ((c0 :: pr) ++ t) then 1 else 0)
          + countOccurAux (c0 :: pr) (pr ++ t) := rfl
    _ = 1 := by rw [hz, startsWithL_self_append, if_pos rfl, Nat.add_zero]

/-! ## Structural characterizations of the generators -/

theorem backendStep_eq (balance : String) (config : String) (service : Service) :
    backendStep balance config service = config ++ backendBlock balance service := by
  unfold backendStep backendBlock serverLinesOf
  rw [foldl_of_step_append
    (fun c p => c ++ serverLineFn (backendName service) p)
    (serverLineFn (backendName service))
    (fun _ _ => rfl)]
  rw [String.append_assoc, String.append_assoc, String.append_assoc]

/-- The backend section is the concatenation of one backend block per service,
in input order. -/
theorem createBackendConfigs_eq (services : List Service) (balance : String) :
    createBackendConfigs services balance = concatAll (backendBlocksList services balance) := by
  unfold createBackendConfigs backendBlocksList
  rw [foldl_of_step_append (backendStep balance) (backendBlock balance)
    (backendStep_eq balance), strEmpty_append]

theorem routingFold_eq (m : List (String × Service)) (a1 a2 : String) :
    m.foldl routingStep (a1, a2)
      = (a1 ++ concatAll (aclRulesList m), a2 ++ concatAll (useRulesList m)) := by
  induction m generalizing a1 a2 with
  | nil => simp [aclRulesList, useRulesList, concatAll_nil, strAppend_empty]
  | cons p t ih =>
    rw [List.foldl_cons]
    have hstep : routingStep (a1, a2) p
        = (a1 ++ formatAclPattern (backendName p.2 ++ "_req") p.1,
           a2 ++ formatUseBackendPattern (backendName p.2) (backendName p.2 ++ "_req")) := rfl
    rw [hstep, ih]
    unfold aclRulesList useRulesList
    rw [List.map_cons, List.map_cons, concatAll_cons, concatAll_cons,
      String.append_assoc, String.append_assoc]

/-- The frontend rules text is all acl rules, in map order, followed by all
use-backend rules, in map order. -/
theorem urlRoutingConfig_eq (m : List (String × Service)) :
    urlRoutingConfig m = concatAll (aclRulesList m) ++ concatAll (useRulesList m) := by
  unfold urlRoutingConfig
  rw [routingFold_eq, strEmpty_append, strEmpty_append]

/-- The server lines of a block, re-expressed by index: the i-th line is built
from index i and the i-th endpoint of the snapshot. -/
theorem serverLinesOf_eq_range (name : String) (addrs : List String) :
    serverLinesOf name addrs = (List.range addrs.length).map (fun i =>
      formatServerPattern (serverName name i) (addrs.getD i "") internalPort
        (serverName name i)) := by
  apply List.ext_getElem
  · simp [serverLinesOf]
  · intro n h1 h2
    have hn : n < addrs.length := by simpa [serverLinesOf] using h1
    simp only [serverLinesOf, serverLineFn, List.getElem_map, List.getElem_enum,
      List.getElem_range]
    rw [List.getD_eq_getElem addrs "" hn]

/-- Every backend block begins with the header line declaring its name. -/
theorem backendBlock_header (balance : String) (s : Service) :
    ∃ rest, ("\nbackend " ++ backendName s).data ++ rest = (backendBlock balance s).data := by
  refine ⟨("\n    balance " ++ balance
      ++ "\n    cookie SERVERID insert indirect nocache"
      ++ concatAll (serverLinesOf (backendName s) s.children) ++ "\n").data, ?_⟩
  simp [backendBlock, formatBackendPattern, String.data_append, List.append_assoc]

/-- One backend block, re-expressed with every pattern spelled out literally
and the server lines indexed by position: the i-th server line (0-based)
carries the id `name-i`, the i-th endpoint address, the fixed port 80, and a
cookie value equal to that id. -/
theorem backendBlock_eq_range (balance : String) (s : Service) :
    backendBlock balance s
      = "\nbackend " ++ s.name ++ "\n    balance " ++ balance
          ++ "\n    cookie SERVERID insert indirect nocache"
          ++ concatAll ((List.range s.children.length).map (fun i =>
              "\n    server " ++ (s.name ++ "-" ++ toString i) ++ " "
                ++ s.children.getD i "" ++ ":" ++ toString 80
                ++ " check resolvers dns cookie " ++ (s.name ++ "-" ++ toString i)))
          ++ "\n" := by
  unfold backendBlock
  rw [serverLinesOf_eq_range]
  rfl

/-! ## The claims -/

/-- C1 (counterexample): the claim that the number of distinct backend blocks
equals the number of distinct services referenced by the domain map fails on
the code.  For the map sending both `a.com` and `b.com` to the one service
`web`, the generated backend section contains the block header `backend web`
twice (one backend block per domain key, with no deduplication of services),
while the map references a single distinct service. -/
theorem claim_C1_counterexample :
    numBackendBlocks (createBackendConfigs
        (servicesOf [("a.com", ⟨"web", []⟩), ("b.com", ⟨"web", []⟩)]) "roundrobin")
      ≠ (distinctServices [("a.com", ⟨"web", []⟩), ("b.com", ⟨"web", []⟩)]).length
    ∧ numBackendBlocks (createBackendConfigs
        (servicesOf [("a.com", ⟨"web", []⟩), ("b.com", ⟨"web", []⟩)]) "roundrobin") = 2
    ∧ (distinctServices [("a.com", ⟨"web", []⟩), ("b.com", ⟨"web", []⟩)]).length = 1 :=
  ⟨by decide, by decide, by decide⟩

/-- C1 (amended): for every domain-to-service map, the backend section
generated by the multi-target entry point is the concatenation of exactly one
backend block per domain key, in map iteration order; a service appearing
under several domain keys therefore produces one (duplicate) backend block
per key, so the number of backend blocks equals the number of domain keys,
not the number of distinct services. -/
theorem claim_C1 (m : List (String × Service)) (balance : String) :
    createBackendConfigs (servicesOf m) balance
      = concatAll (m.map (fun p => backendBlock balance p.2))
    ∧ (m.map (fun p => backendBlock balance p.2)).length = m.length := by
  constructor
  · rw [createBackendConfigs_eq]
    unfold backendBlocksList servicesOf
    rw [List.map_map]
    rfl
  · rw [List.length_map]

/-- C2: for every non-empty list of services and balance token, the backend
generator emits one backend block per service in input order; each block
carries the balance token and the fixed cookie-affinity directive and
contains one server line per endpoint of the snapshot, in snapshot order,
the i-th line having id `name-i`, the i-th endpoint address, port 80, and a
cookie value equal to that id. -/
theorem claim_C2 (services : List Service) (balance : String)
    (h : services ≠ []) :
    createBackendConfigs services balance
      = concatAll (services.map (fun s =>
          "\nbackend " ++ s.name ++ "\n    balance " ++ balance
            ++ "\n    cookie SERVERID insert indirect nocache"
            ++ concatAll ((List.range s.children.length).map (fun i =>
                "\n    server " ++ (s.name ++ "-" ++ toString i) ++ " "
                  ++ s.children.getD i "" ++ ":" ++ toString 80
                  ++ " check resolvers dns cookie " ++ (s.name ++ "-" ++ toString i)))
            ++ "\n")) := by
  rw [createBackendConfigs_eq]
  unfold backendBlocksList
  rw [funext (backendBlock_eq_range balance)]

/-- Witness for C2, at the spec scenario: single service `web` with endpoints
`10.0.0.1` and `10.0.0.2` and balance token `round-robin`. -/
theorem claim_C2_witness :
    ([(⟨"web", ["10.0.0.1", "10.0.0.2"]⟩ : Service)] ≠ ([] : List Service))
    ∧ createBackendConfigs [⟨"web", ["10.0.0.1", "10.0.0.2"]⟩] "round-robin"
        = concatAll ([(⟨"web", ["10.0.0.1", "10.0.0.2"]⟩ : Service)].map (fun s =>
            "\nbackend " ++ s.name ++ "\n    balance " ++ "round-robin"
              ++ "\n    cookie SERVERID insert indirect nocache"
              ++ concatAll ((List.range s.children.length).map (fun i =>
                  "\n    server " ++ (s.name ++ "-" ++ toString i) ++ " "
                    ++ s.children.getD i "" ++ ":" ++ toString 80
                    ++ " check resolvers dns cookie " ++ (s.name ++ "-" ++ toString i)))
              ++ "\n")) :=
  ⟨by decide, claim_C2 [⟨"web", ["10.0.0.1", "10.0.0.2"]⟩] "round-robin" (by decide)⟩

/-- C3: for every domain-to-service map, the multi-target frontend generator
emits, per (domain, service) pair in map iteration order, one acl rule with
match id `backendName_req` testing the Host header case-insensitively against
the domain, and one use-backend directive for that backend guarded by that
match id; all acl rules come before all use-backend directives, and within
each kind the order is map iteration order. -/
theorem claim_C3 (m : List (String × Service)) :
    urlRoutingConfig m
      = concatAll (m.map (fun p =>
          "\n    acl " ++ (backendName p.2 ++ "_req") ++ " hdr(host) -i " ++ p.1))
        ++ concatAll (m.map (fun p =>
          "\n    use_backend " ++ backendName p.2 ++ " if " ++ (backendName p.2 ++ "_req"))) := by
  rw [urlRoutingConfig_eq]
  rfl

/-- C4: the single-target entry point produces a document whose frontend
section is exactly one unconditional default-backend directive naming the
service's backend, with zero acl rules and zero use-backend directives.  The
hypothesis that the service name contains no newline reflects the data-model
invariant that names are valid identifiers of the target grammar. -/
theorem claim_C4 (configTempl : String) (service : Service) (balance : String)
    (hnm : '\n' ∉ (backendName service).data) :
    singleServiceLoadBalancerFiles configTempl service balance
      = createConfigFiles configTempl
          (formatDefaultBackendPattern (backendName service))
          (createBackendConfigs [service] balance)
    ∧ formatDefaultBackendPattern (backendName service)
        = "\n    default_backend " ++ backendName service
    ∧ countOccur "\n    default_backend "
        (formatDefaultBackendPattern (backendName service)) = 1
    ∧ countOccur "\n    acl " (formatDefaultBackendPattern (backendName service)) = 0
    ∧ countOccur "\n    use_backend "
        (formatDefaultBackendPattern (backendName service)) = 0 := by
  have hd : ("\n    default_backend " : String).data
      = '\n' :: ("    default_backend " : String).data := by decide
  refine ⟨rfl, rfl, ?_, ?_, ?_⟩
  · unfold countOccur formatDefaultBackendPattern
    rw [String.data_append, hd]
    exact countOccurAux_self_once '\n' _ _ (by decide) hnm
  · have ha : ("\n    acl " : String).data = '\n' :: ("    acl " : String).data := by decide
    unfold countOccur formatDefaultBackendPattern
    rw [String.data_append, hd, ha,
      countOccurAux_single_line '\n' _ _ _ (by decide) hnm (by decide)]
    decide
  · have hu : ("\n    use_backend " : String).data
        = '\n' :: ("    use_backend " : String).data := by decide
    unfold countOccur formatDefaultBackendPattern
    rw [String.data_append, hd, hu,
      countOccurAux_single_line '\n' _ _ _ (by decide) hnm (by decide)]
    decide

/-- Witness for C4 at a concrete service. -/
theorem claim_C4_witness :
    '\n' ∉ (backendName ⟨"web", ["10.0.0.1"]⟩).data
    ∧ (singleServiceLoadBalancerFiles "T" ⟨"web", ["10.0.0.1"]⟩ "roundrobin"
        = createConfigFiles "T"
            (formatDefaultBackendPattern (backendName ⟨"web", ["10.0.0.1"]⟩))
            (createBackendConfigs [⟨"web", ["10.0.0.1"]⟩] "roundrobin")
      ∧ formatDefaultBackendPattern (backendName ⟨"web", ["10.0.0.1"]⟩)
          = "\n    default_backend " ++ backendName ⟨"web", ["10.0.0.1"]⟩
      ∧ countOccur "\n    default_backend "
          (formatDefaultBackendPattern (backendName ⟨"web", ["10.0.0.1"]⟩)) = 1
      ∧ countOccur "\n    acl "
          (formatDefaultBackendPattern (backendName ⟨"web", ["10.0.0.1"]⟩)) = 0
      ∧ countOccur "\n    use_backend "
          (formatDefaultBackendPattern (backendName ⟨"web", ["10.0.0.1"]⟩)) = 0) :=
  ⟨by decide, claim_C4 "T" ⟨"web", ["10.0.0.1"]⟩ "roundrobin" (by decide)⟩

/-- C5 (counterexample): the claim that the omitted balance argument defaults
to the token `round-robin` fails on the code: the source default is the
hyphen-free token `roundrobin`.  With the argument omitted, the document
generated for a concrete service spells `balance roundrobin` and contains no
occurrence of `round-robin`. -/
theorem claim_C5_counterexample :
    defaultBalance ≠ "round-robin"
    ∧ singleServiceLoadBalancerFilesDefault "" ⟨"web", []⟩
        = [(configPath,
            "\n    default_backend web\n\nbackend web\n    balance roundrobin\n    cookie SERVERID insert indirect nocache\n")]
    ∧ countOccur "round-robin"
        "\n    default_backend web\n\nbackend web\n    balance roundrobin\n    cookie SERVERID insert indirect nocache\n"
        = 0
    ∧ countOccur "\n    balance roundrobin"
        "\n    default_backend web\n\nbackend web\n    balance roundrobin\n    cookie SERVERID insert indirect nocache\n"
        = 1 :=
  ⟨by decide, by decide, by decide, by decide⟩

/-- C5 (amended): when the balance argument is omitted, both entry points use
the default token `roundrobin` (no hyphen), forwarded verbatim into every
generated backend block's balance directive. -/
theorem claim_C5 (configTempl : String) (service : Service)
    (m : List (String × Service)) :
    singleServiceLoadBalancerFilesDefault configTempl service
      = singleServiceLoadBalancerFiles configTempl service "roundrobin"
    ∧ withURLroutingFilesDefault configTempl m
        = withURLroutingFiles configTempl m "roundrobin"
    ∧ ∀ svc : Service, ∃ u v,
        u ++ ("\n    balance roundrobin").data ++ v
          = (backendBlock defaultBalance svc).data := by
  refine ⟨rfl, rfl, fun svc => ?_⟩
  refine ⟨("\nbackend " ++ backendName svc).data,
    ("\n    cookie SERVERID insert indirect nocache"
      ++ concatAll (serverLinesOf (backendName svc) svc.children) ++ "\n").data, ?_⟩
  have hlit : ("\n    balance roundrobin" : String).data
      = ("\n    balance " : String).data ++ ("roundrobin" : String).data := by decide
  rw [hlit]
  simp [backendBlock, formatBackendPattern, defaultBalance, String.data_append,
    List.append_assoc]

/-- C6: a service whose endpoint snapshot is empty raises no error (the
generator is a total function) and still yields its backend block, consisting
of the header, the balance directive and the cookie-affinity directive, with
zero server lines. -/
theorem claim_C6 (balance : String) (s : Service) (h : s.children = []) :
    createBackendConfigs [s] balance
      = "\nbackend " ++ s.name ++ "\n    balance " ++ balance
        ++ "\n    cookie SERVERID insert indirect nocache" ++ "\n" := by
  rw [createBackendConfigs_eq]
  unfold backendBlocksList
  rw [List.map_cons, List.map_nil, concatAll_cons, concatAll_nil, strAppend_empty]
  unfold backendBlock
  rw [h]
  simp only [serverLinesOf, List.enum_nil, List.map_nil, concatAll_nil, strAppend_empty]
  rfl

/-- Witness for C6 at a concrete endpoint-free service. -/
theorem claim_C6_witness :
    (⟨"web", []⟩ : Service).children = []
    ∧ createBackendConfigs [⟨"web", []⟩] "roundrobin"
        = "\nbackend " ++ (⟨"web", []⟩ : Service).name ++ "\n    balance " ++ "roundrobin"
          ++ "\n    cookie SERVERID insert indirect nocache" ++ "\n" :=
  ⟨rfl, claim_C6 "roundrobin" ⟨"web", []⟩ rfl⟩

/-- C7: if one service's endpoint snapshot grows from `[a]` to `[a, bb]` (all
other inputs unchanged), then every other position of the backend-block list
is textually unchanged, and the changed position's block equals the old block
with one additional server line, of id `name-1` for endpoint `bb`, inserted
before the block's trailing newline; the generated backend text is in both
generations the concatenation of these blocks. -/
theorem claim_C7 (services : List Service) (balance : String) (idx : Nat)
    (hidx : idx < services.length) (a bb : String)
    (hold : (services.getD idx defaultService).children = [a]) :
    (∀ j, j < services.length → j ≠ idx →
      backendBlock balance ((services.set idx
          ⟨(services.getD idx defaultService).name, [a, bb]⟩).getD j defaultService)
        = backendBlock balance (services.getD j defaultService))
    ∧ (∃ core,
        backendBlock balance (services.getD idx defaultService) = core ++ "\n"
        ∧ backendBlock balance ((services.set idx
            ⟨(services.getD idx defaultService).name, [a, bb]⟩).getD idx defaultService)
          = core
              ++ ("\n    server "
                  ++ ((services.getD idx defaultService).name ++ "-" ++ toString 1) ++ " "
                  ++ bb ++ ":" ++ toString 80 ++ " check resolvers dns cookie "
                  ++ ((services.getD idx defaultService).name ++ "-" ++ toString 1))
              ++ "\n")
    ∧ createBackendConfigs (services.set idx
          ⟨(services.getD idx defaultService).name, [a, bb]⟩) balance
        = concatAll ((services.set idx
            ⟨(services.getD idx defaultService).name, [a, bb]⟩).map (backendBlock balance))
    ∧ createBackendConfigs services balance
        = concatAll (services.map (backendBlock balance)) := by
  refine ⟨?_, ?_, createBackendConfigs_eq _ _, createBackendConfigs_eq _ _⟩
  · intro j hj hne
    have hj' : j < (services.set idx
        (⟨(services.getD idx defaultService).name, [a, bb]⟩ : Service)).length := by
      rw [List.length_set]; exact hj
    rw [List.getD_eq_getElem _ _ hj', List.getD_eq_getElem _ _ hj,
      List.getElem_set_ne (Ne.symm hne)]
  · have hidx' : idx < (services.set idx
        (⟨(services.getD idx defaultService).name, [a, bb]⟩ : Service)).length := by
      rw [List.length_set]; exact hidx
    have hset : (services.set idx
          (⟨(services.getD idx defaultService).name, [a, bb]⟩ : Service)).getD idx
            defaultService
        = ⟨(services.getD idx defaultService).name, [a, bb]⟩ := by
      rw [List.getD_eq_getElem _ _ hidx', List.getElem_set_self]
    refine ⟨formatBackendPattern (services.getD idx defaultService).name balance
        ++ concatAll (serverLinesOf (services.getD idx defaultService).name [a]), ?_, ?_⟩
    · show formatBackendPattern (backendName (services.getD idx defaultService)) balance
          ++ concatAll (serverLinesOf (backendName (services.getD idx defaultService))
              (services.getD idx defaultService).children) ++ "\n" = _
      rw [hold]
      rfl
    · rw [hset]
      show formatBackendPattern (services.getD idx defaultService).name balance
          ++ concatAll (serverLinesOf (services.getD idx defaultService).name [a, bb])
          ++ "\n" = _
      have e1 : serverLinesOf (services.getD idx defaultService).name [a]
          = [serverLineFn (services.getD idx defaultService).name (0, a)] := rfl
      have e2 : serverLinesOf (services.getD idx defaultService).name [a, bb]
          = [serverLineFn (services.getD idx defaultService).name (0, a),
             serverLineFn (services.getD idx defaultService).name (1, bb)] := rfl
      rw [e1, e2, concatAll_cons, concatAll_cons, concatAll_nil, concatAll_cons,
        concatAll_nil]
      simp only [serverLineFn, formatServerPattern, serverName, internalPort,
        String.append_assoc, strAppend_empty]

/-- Witness for C7: a two-service list in which the first service's snapshot
grows from one endpoint to two. -/
theorem claim_C7_witness :
    0 < ([⟨"web", ["10.0.0.1"]⟩, ⟨"api", ["10.9.9.9"]⟩] : List Service).length
    ∧ (([⟨"web", ["10.0.0.1"]⟩, ⟨"api", ["10.9.9.9"]⟩] : List Service).getD 0
        defaultService).children = ["10.0.0.1"]
    ∧ ((∀ j, j < ([⟨"web", ["10.0.0.1"]⟩, ⟨"api", ["10.9.9.9"]⟩] : List Service).length
          → j ≠ 0 →
          backendBlock "roundrobin"
              ((([⟨"web", ["10.0.0.1"]⟩, ⟨"api", ["10.9.9.9"]⟩] : List Service).set 0
                ⟨(([⟨"web", ["10.0.0.1"]⟩, ⟨"api", ["10.9.9.9"]⟩] : List Service).getD 0
                    defaultService).name, ["10.0.0.1", "10.0.0.2"]⟩).getD j defaultService)
            = backendBlock "roundrobin"
                (([⟨"web", ["10.0.0.1"]⟩, ⟨"api", ["10.9.9.9"]⟩] : List Service).getD j
                  defaultService))
      ∧ (∃ core,
          backendBlock "roundrobin"
              (([⟨"web", ["10.0.0.1"]⟩, ⟨"api", ["10.9.9.9"]⟩] : List Service).getD 0
                defaultService) = core ++ "\n"
          ∧ backendBlock "roundrobin"
              ((([⟨"web", ["10.0.0.1"]⟩, ⟨"api", ["10.9.9.9"]⟩] : List Service).set 0
                ⟨(([⟨"web", ["10.0.0.1"]⟩, ⟨"api", ["10.9.9.9"]⟩] : List Service).getD 0
                    defaultService).name, ["10.0.0.1", "10.0.0.2"]⟩).getD 0 defaultService)
            = core
                ++ ("\n    server "
                    ++ ((([⟨"web", ["10.0.0.1"]⟩, ⟨"api", ["10.9.9.9"]⟩] : List Service).getD 0
                        defaultService).name ++ "-" ++ toString 1) ++ " "
                    ++ "10.0.0.2" ++ ":" ++ toString 80 ++ " check resolvers dns cookie "
                    ++ ((([⟨"web", ["10.0.0.1"]⟩, ⟨"api", ["10.9.9.9"]⟩] : List Service).getD 0
                        defaultService).name ++ "-" ++ toString 1))
                ++ "\n")
      ∧ createBackendConfigs (([⟨"web", ["10.0.0.1"]⟩, ⟨"api", ["10.9.9.9"]⟩] : List Service).set 0
            ⟨(([⟨"web", ["10.0.0.1"]⟩, ⟨"api", ["10.9.9.9"]⟩] : List Service).getD 0
                defaultService).name, ["10.0.0.1", "10.0.0.2"]⟩) "roundrobin"
          = concatAll ((([⟨"web", ["10.0.0.1"]⟩, ⟨"api", ["10.9.9.9"]⟩] : List Service).set 0
              ⟨(([⟨"web", ["10.0.0.1"]⟩, ⟨"api", ["10.9.9.9"]⟩] : List Service).getD 0
                  defaultService).name, ["10.0.0.1", "10.0.0.2"]⟩).map
                (backendBlock "roundrobin"))
      ∧ createBackendConfigs [⟨"web", ["10.0.0.1"]⟩, ⟨"api", ["10.9.9.9"]⟩] "roundrobin"
          = concatAll (([⟨"web", ["10.0.0.1"]⟩, ⟨"api", ["10.9.9.9"]⟩] : List Service).map
              (backendBlock "roundrobin"))) :=
  ⟨by decide, by decide,
    claim_C7 [⟨"web", ["10.0.0.1"]⟩, ⟨"api", ["10.9.9.9"]⟩] "roundrobin" 0 (by decide)
      "10.0.0.1" "10.0.0.2" (by decide)⟩

/-- C8: the generator is deterministic: two invocations with equal template
text, equal domain maps (same entries in the same iteration order, hence the
same endpoint snapshots), equal services and equal balance tokens produce
identical file maps, for both entry points. -/
theorem claim_C8 (t1 t2 : String) (m1 m2 : List (String × Service))
    (b1 b2 : String) (s1 s2 : Service)
    (ht : t1 = t2) (hm : m1 = m2) (hb : b1 = b2) (hs : s1 = s2) :
    withURLroutingFiles t1 m1 b1 = withURLroutingFiles t2 m2 b2
    ∧ singleServiceLoadBalancerFiles t1 s1 b1 = singleServiceLoadBalancerFiles t2 s2 b2 := by
  subst ht; subst hm; subst hb; subst hs
  exact ⟨rfl, rfl⟩

/-- Witness for C8 at concrete equal inputs. -/
theorem claim_C8_witness :
    ("T" : String) = "T"
    ∧ ([("a.com", ⟨"web", ["10.0.0.1"]⟩)] : List (String × Service))
        = [("a.com", ⟨"web", ["10.0.0.1"]⟩)]
    ∧ ("roundrobin" : String) = "roundrobin"
    ∧ (⟨"web", ["10.0.0.1"]⟩ : Service) = ⟨"web", ["10.0.0.1"]⟩
    ∧ (withURLroutingFiles "T" [("a.com", ⟨"web", ["10.0.0.1"]⟩)] "roundrobin"
        = withURLroutingFiles "T" [("a.com", ⟨"web", ["10.0.0.1"]⟩)] "roundrobin"
      ∧ singleServiceLoadBalancerFiles "T" ⟨"web", ["10.0.0.1"]⟩ "roundrobin"
        = singleServiceLoadBalancerFiles "T" ⟨"web", ["10.0.0.1"]⟩ "roundrobin") :=
  ⟨rfl, rfl, rfl, rfl,
    claim_C8 "T" "T" [("a.com", ⟨"web", ["10.0.0.1"]⟩)] [("a.com", ⟨"web", ["10.0.0.1"]⟩)]
      "roundrobin" "roundrobin" ⟨"web", ["10.0.0.1"]⟩ ⟨"web", ["10.0.0.1"]⟩
      rfl rfl rfl rfl⟩

/-- C9 (counterexample): the claim that preamble, frontend and backend are
each separated by a newline fails on the code: the assembler inserts a
newline only between the frontend and the backend text, none between the
preamble and the frontend.  With template `T`, frontend `F` and backend `B`,
the document is `TF\nB`, not `T\nF\nB`. -/
theorem claim_C9_counterexample :
    createConfigFiles "T" "F" "B" = [(configPath, "TF\nB")]
    ∧ "TF\nB" ≠ "T" ++ "\n" ++ "F" ++ "\n" ++ "B" :=
  ⟨by decide, by decide⟩

/-- C9 (amended): the assembled document equals the rendered preamble (the
template with the exposed port substituted), directly followed by the
frontend text, one newline, and the backend text — the only separator the
assembler inserts is the newline between frontend and backend (the generated
section texts themselves begin with a newline); the result is delivered as a
single-entry mapping from the fixed config path to this text. -/
theorem claim_C9 (configTempl frontendConfig backendConfig : String) :
    createConfigFiles configTempl frontendConfig backendConfig
      = [(configPath,
          mustacheRender configTempl exposedPort ++ frontendConfig ++ "\n"
            ++ backendConfig)] := by
  unfold createConfigFiles
  simp only [String.append_assoc]

/-- C10: in the document generated by the multi-target entry point, the k-th
use-backend directive and the k-th backend block are generated from the same
map entry: the directive routes to exactly the name that the k-th block's
header declares, and the two lists have the same length — so no use-backend
directive can target an undeclared backend. -/
theorem claim_C10 (m : List (String × Service)) (balance : String) (k : Nat)
    (hk : k < m.length) :
    urlRoutingConfig m = concatAll (aclRulesList m) ++ concatAll (useRulesList m)
    ∧ createBackendConfigs (servicesOf m) balance
        = concatAll (backendBlocksList (servicesOf m) balance)
    ∧ (useRulesList m).length = (backendBlocksList (servicesOf m) balance).length
    ∧ (useRulesList m).getD k ""
        = "\n    use_backend " ++ backendName (m.getD k ("", defaultService)).2
            ++ " if " ++ (backendName (m.getD k ("", defaultService)).2 ++ "_req")
    ∧ ∃ rest,
        ("\nbackend " ++ backendName (m.getD k ("", defaultService)).2).data ++ rest
          = ((backendBlocksList (servicesOf m) balance).getD k "").data := by
  have hk1 : k < (useRulesList m).length := by
    simpa [useRulesList] using hk
  have hk2 : k < (backendBlocksList (servicesOf m) balance).length := by
    simpa [backendBlocksList, servicesOf] using hk
  refine ⟨urlRoutingConfig_eq m, createBackendConfigs_eq _ _, ?_, ?_, ?_⟩
  · simp [useRulesList, backendBlocksList, servicesOf]
  · rw [List.getD_eq_getElem _ _ hk1, List.getD_eq_getElem m _ hk]
    unfold useRulesList
    rw [List.getElem_map]
    rfl
  · rw [List.getD_eq_getElem _ _ hk2, List.getD_eq_getElem m _ hk]
    unfold backendBlocksList servicesOf
    rw [List.getElem_map, List.getElem_map]
    exact backendBlock_header balance _

/-- Witness for C10 at a one-entry map and index 0. -/
theorem claim_C10_witness :
    0 < ([("a.com", ⟨"web", []⟩)] : List (String × Service)).length
    ∧ (urlRoutingConfig [("a.com", ⟨"web", []⟩)]
        = concatAll (aclRulesList [("a.com", ⟨"web", []⟩)])
          ++ concatAll (useRulesList [("a.com", ⟨"web", []⟩)])
      ∧ createBackendConfigs (servicesOf [("a.com", ⟨"web", []⟩)]) "roundrobin"
          = concatAll (backendBlocksList (servicesOf [("a.com", ⟨"web", []⟩)]) "roundrobin")
      ∧ (useRulesList [("a.com", ⟨"web", []⟩)]).length
          = (backendBlocksList (servicesOf [("a.com", ⟨"web", []⟩)]) "roundrobin").length
      ∧ (useRulesList [("a.com", ⟨"web", []⟩)]).getD 0 ""
          = "\n    use_backend "
              ++ backendName (([("a.com", ⟨"web", []⟩)] : List (String × Service)).getD 0
                  ("", defaultService)).2
              ++ " if "
              ++ (backendName (([("a.com", ⟨"web", []⟩)] : List (String × Service)).getD 0
                  ("", defaultService)).2 ++ "_req")
      ∧ ∃ rest,
          ("\nbackend "
              ++ backendName (([("a.com", ⟨"web", []⟩)] : List (String × Service)).getD 0
                  ("", defaultService)).2).data ++ rest
            = ((backendBlocksList (servicesOf [("a.com", ⟨"web", []⟩)]) "roundrobin").getD 0
                "").data) :=
  ⟨by decide, claim_C10 [("a.com", ⟨"web", []⟩)] "roundrobin" 0 (by decide)⟩

end Haproxy
